import Mathlib

/-!
# pokemon-mcp: a shallow embedding of `main.go`

The program registers two tool handlers, `getPokemonHandler` and
`comparePokemonHandler`, both built on `fetchPokemon`.

Modelling decisions.

* Go strings are modelled by `String`.  Every string the handlers see comes out
  of `encoding/json` (the argument mapping and the decoded record), which only
  produces valid UTF-8, so a sequence of Unicode scalar values is exact.
* Go `int` is modelled by `Int`; the program does no arithmetic on it and only
  prints it with `%d`.
* A Go `error` is modelled by its `Error()` text, the only thing `%v` reads.
* The network is explicit state: `Net` carries the upstream's behaviour and the
  log of URLs handed to `http.Get`, in call order.
* A handler ends in `Outcome.returned result err` (the Go pair) or in
  `Outcome.panicked` (a run-time panic).
* Library code that `main.go` calls but does not contain is a parameter
  (`Env`): the Unicode case and class tables above ASCII, and the JSON decoder.
  The ASCII fast paths of `unicode.ToLower`, `unicode.ToTitle` and
  `strings.isSeparator` are fixed by a few comparisons and are written out.
-/

namespace PokemonMcp

/-! ## Data model (`main.go` 13-29) -/

/-- The inner `struct { Name string }` of a type or stat entry. -/
structure NamedRef where
  Name : String

/-- One element of `PokemonResponse.Types`. -/
structure TypeSlot where
  Type_ : NamedRef

/-- One element of `PokemonResponse.Stats`. -/
structure StatSlot where
  BaseStat : Int
  Stat : NamedRef

/-- The record decoded from the upstream's JSON answer. -/
structure PokemonResponse where
  Name : String
  Height : Int
  Weight : Int
  Types : List TypeSlot
  Stats : List StatSlot

/-- A value of Go type `interface{}` as produced by `encoding/json`; a number
is a `float64`, kept as its bit pattern. -/
inductive Value where
  | null : Value
  | bool : Bool → Value
  | number : Nat → Value
  | string : String → Value
  | array : List Value → Value
  | object : List (String × Value) → Value

/-- The `map[string]interface{}` a handler receives: a key is absent (`none`)
or bound to a value. -/
abbrev Arguments := String → Option Value

/-! ## Library parameters -/

/-- The tables of package `unicode` above ASCII. -/
structure UnicodeTables where
  toLower : Char → Char
  toTitle : Char → Char
  isLetter : Char → Bool
  isDigit : Char → Bool
  isSpace : Char → Bool

/-- A response body: the bytes read, and the read error that ended the stream
if there was one. -/
structure Body where
  bytes : List UInt8
  readErr : Option String

/-- What `main.go` takes from libraries: the Unicode tables and
`json.NewDecoder(body).Decode(&pokemon)`. -/
structure Env where
  unicode : UnicodeTables
  jsonDecode : Body → Except String PokemonResponse

/-! ## Package `unicode` and `strings` -/

namespace unicode

/-- The constant `unicode.MaxASCII`. -/
def MaxASCII : Nat := 0x7F

/-- Go `unicode.ToLower`: ASCII is handled by a comparison, the rest by the table. -/
def ToLower (U : UnicodeTables) (r : Char) : Char :=
  if r.toNat ≤ MaxASCII then
    if 'A'.toNat ≤ r.toNat ∧ r.toNat ≤ 'Z'.toNat then Char.ofNat (r.toNat + ('a'.toNat - 'A'.toNat))
    else r
  else U.toLower r

/-- Go `unicode.ToTitle`: title case is upper case for ASCII, the rest by the table. -/
def ToTitle (U : UnicodeTables) (r : Char) : Char :=
  if r.toNat ≤ MaxASCII then
    if 'a'.toNat ≤ r.toNat ∧ r.toNat ≤ 'z'.toNat then Char.ofNat (r.toNat - ('a'.toNat - 'A'.toNat))
    else r
  else U.toTitle r

end unicode

namespace strings

/-- Go `strings.isSeparator`: ASCII alphanumerics and underscore are not
separators; above ASCII, letters and digits are not, and otherwise only spaces are. -/
def isSeparator (U : UnicodeTables) (r : Char) : Bool :=
  if r.toNat ≤ 0x7F then
    if '0'.toNat ≤ r.toNat ∧ r.toNat ≤ '9'.toNat then false
    else if 'a'.toNat ≤ r.toNat ∧ r.toNat ≤ 'z'.toNat then false
    else if 'A'.toNat ≤ r.toNat ∧ r.toNat ≤ 'Z'.toNat then false
    else if r = '_' then false
    else true
  else if U.isLetter r || U.isDigit r then false
  else U.isSpace r

/-- The closure of `strings.Title` run by `strings.Map`: `prev` is the rune seen
before, and a rune is title-cased when `prev` is a separator. -/
def titleMap (U : UnicodeTables) (prev : Char) : List Char → List Char
  | [] => []
  | r :: rs =>
    (if isSeparator U prev then unicode.ToTitle U r else r) :: titleMap U r rs

/-- Go `strings.Title`: `prev` starts as a space. -/
def Title (U : UnicodeTables) (s : String) : String :=
  String.mk (titleMap U ' ' s.data)

/-- Go `strings.ToLower`: every rune goes through `unicode.ToLower`. -/
def ToLower (U : UnicodeTables) (s : String) : String :=
  String.mk (s.data.map (unicode.ToLower U))

/-- Go `strings.Join`. -/
def Join : List String → String → String
  | [], _ => ""
  | [a], _ => a
  | a :: b :: rest, sep => a ++ sep ++ Join (b :: rest) sep

end strings

/-- Go `%d` of an `int`: decimal digits, with a leading minus sign when negative. -/
def fmtInt (n : Int) : String :=
  toString n

/-! ## Package `mcp`: tool results -/

/-- Go `mcp.TextContent`. -/
structure TextContent where
  Type_ : String
  Text : String

/-- Go `mcp.CallToolResult`. -/
structure CallToolResult where
  Content : List TextContent
  IsError : Bool

namespace mcp

/-- Go `mcp.NewToolResultText`. -/
def NewToolResultText (text : String) : CallToolResult :=
  { Content := [{ Type_ := "text", Text := text }], IsError := false }

/-- Go `mcp.NewToolResultError`. -/
def NewToolResultError (text : String) : CallToolResult :=
  { Content := [{ Type_ := "text", Text := text }], IsError := true }

end mcp

/-- How a handler call ends: it returns the pair `(result, err)` or it panics. -/
inductive Outcome where
  | returned : CallToolResult → Option String → Outcome
  | panicked : String → Outcome

/-! ## The network -/

/-- What `http.Get` gives back: an error, or a response with a status code and a body. -/
inductive HttpReply where
  | failed : String → HttpReply
  | response : Int → Body → HttpReply

/-- The network as state: `upstream k url` is the answer to the call number `k`
(counted from 0) when it asks for `url`; `requests` lists the URLs asked for so far. -/
structure Net where
  upstream : Nat → String → HttpReply
  requests : List String

namespace http

/-- The constant `http.StatusOK`. -/
def StatusOK : Int := 200

/-- Go `http.Get`: the upstream answers, and the URL is logged. -/
def Get (url : String) (net : Net) : HttpReply × Net :=
  (net.upstream net.requests.length url, { net with requests := net.requests ++ [url] })

end http

/-! ## `main.go` -/

/-- The URL `fetchPokemon` asks for (`main.go` 146). -/
def fetchURL (U : UnicodeTables) (name : String) : String :=
  "https://pokeapi.co/api/v2/pokemon/" ++ strings.ToLower U name

/-- Go `fetchPokemon` (`main.go` 145-162). -/
def fetchPokemon (env : Env) (name : String) (net : Net) : Except String PokemonResponse × Net :=
  match http.Get (fetchURL env.unicode name) net with
  | (HttpReply.failed err, net1) => (Except.error err, net1)
  | (HttpReply.response StatusCode body, net1) =>
    if StatusCode ≠ http.StatusOK then
      (Except.error ("API returned status code " ++ fmtInt StatusCode), net1)
    else
      match env.jsonDecode body with
      | Except.error err => (Except.error err, net1)
      | Except.ok pokemon => (Except.ok pokemon, net1)

/-- The line the loop of `getPokemonHandler` appends for one stat (`main.go` 99). -/
def statLine (stat : StatSlot) : String :=
  stat.Stat.Name ++ ": " ++ fmtInt stat.BaseStat ++ "\n"

/-- The text `getPokemonHandler` starts from (`main.go` 83-96). -/
def infoHeader (U : UnicodeTables) (pokemon : PokemonResponse) : String :=
  let types := pokemon.Types.map (fun t => t.Type_.Name)
  "🔍 Pokemon Information for " ++ strings.Title U pokemon.Name ++ ":\n\n" ++
    "Height: " ++ fmtInt pokemon.Height ++ " decimeters\n" ++
    "Weight: " ++ fmtInt pokemon.Weight ++ " hectograms\n" ++
    "Types: " ++ strings.Join types ", " ++ "\n\n" ++
    "Base Stats:\n"

/-- Go `getPokemonHandler` (`main.go` 71-103). -/
def getPokemonHandler (env : Env) (arguments : Arguments) (net : Net) : Outcome × Net :=
  match arguments "name" with
  | some (Value.string name) =>
    match fetchPokemon env name net with
    | (Except.error err, net1) =>
      (Outcome.returned (mcp.NewToolResultError ("Error fetching Pokemon: " ++ err)) none, net1)
    | (Except.ok pokemon, net1) =>
      let response := infoHeader env.unicode pokemon
      let response := pokemon.Stats.foldl (fun acc stat => acc ++ statLine stat) response
      (Outcome.returned (mcp.NewToolResultText response) none, net1)
  | _ => (Outcome.returned (mcp.NewToolResultError "name must be a string") none, net)

/-- The line the loop of `comparePokemonHandler` appends for one index (`main.go` 136-139). -/
def compareLine (stat1 stat2 : StatSlot) : String :=
  stat1.Stat.Name ++ ": " ++ fmtInt stat1.BaseStat ++ " vs " ++ fmtInt stat2.BaseStat ++ "\n"

/-- The loop of `comparePokemonHandler` (`main.go` 133-140), entered at index `i`
with the text built so far: `p2.Stats[i]` is read unchecked, and an index out of
range stops the loop with the panic text. -/
def compareLoop (p1 p2 : PokemonResponse) (i : Nat) (comparison : String) : Except String String :=
  if h : i < p1.Stats.length then
    let stat1 := p1.Stats[i]
    match p2.Stats[i]? with
    | none =>
      Except.error ("runtime error: index out of range [" ++ toString i ++
        "] with length " ++ toString p2.Stats.length)
    | some stat2 => compareLoop p1 p2 (i + 1) (comparison ++ compareLine stat1 stat2)
  else Except.ok comparison
termination_by p1.Stats.length - i

/-- The text `comparePokemonHandler` enters its loop with (`main.go` 127-132). -/
def compareHeader (U : UnicodeTables) (p1 p2 : PokemonResponse) : String :=
  "⚔️ Pokemon Comparison: " ++ strings.Title U p1.Name ++ " vs " ++
    strings.Title U p2.Name ++ "\n\n" ++ "Base Stats Comparison:\n"

/-- Go `comparePokemonHandler` (`main.go` 105-143). -/
def comparePokemonHandler (env : Env) (arguments : Arguments) (net : Net) : Outcome × Net :=
  match arguments "pokemon1" with
  | some (Value.string pokemon1) =>
    match arguments "pokemon2" with
    | some (Value.string pokemon2) =>
      match fetchPokemon env pokemon1 net with
      | (Except.error err, net1) =>
        (Outcome.returned
          (mcp.NewToolResultError ("Error fetching " ++ pokemon1 ++ ": " ++ err)) none, net1)
      | (Except.ok p1, net1) =>
        match fetchPokemon env pokemon2 net1 with
        | (Except.error err, net2) =>
          (Outcome.returned
            (mcp.NewToolResultError ("Error fetching " ++ pokemon2 ++ ": " ++ err)) none, net2)
        | (Except.ok p2, net2) =>
          match compareLoop p1 p2 0 (compareHeader env.unicode p1 p2) with
          | Except.error msg => (Outcome.panicked msg, net2)
          | Except.ok comparison =>
            (Outcome.returned (mcp.NewToolResultText comparison) none, net2)
    | _ => (Outcome.returned (mcp.NewToolResultError "pokemon2 must be a string") none, net)
  | _ => (Outcome.returned (mcp.NewToolResultError "pokemon1 must be a string") none, net)

/-! ## Concrete data used by the examples -/

/-- Tables that leave every rune above ASCII alone and class none of them. -/
def asciiTables : UnicodeTables :=
  { toLower := fun r => r, toTitle := fun r => r,
    isLetter := fun _ => false, isDigit := fun _ => false, isSpace := fun _ => false }

/-- Tables that know one letter above ASCII: `é`, with its capital `É`. -/
def accentTables : UnicodeTables :=
  { toLower := fun r => if r = 'É' then 'é' else r,
    toTitle := fun r => if r = 'é' then 'É' else r,
    isLetter := fun r => r == 'é' || r == 'É',
    isDigit := fun _ => false, isSpace := fun _ => false }

/-- An abridged record for `pikachu`. -/
def pikachu : PokemonResponse :=
  { Name := "pikachu", Height := 4, Weight := 60,
    Types := [{ Type_ := { Name := "electric" } }],
    Stats := [{ BaseStat := 35, Stat := { Name := "hp" } },
              { BaseStat := 55, Stat := { Name := "attack" } }] }

/-- An abridged record for `ditto`. -/
def ditto : PokemonResponse :=
  { Name := "ditto", Height := 3, Weight := 40,
    Types := [{ Type_ := { Name := "normal" } }],
    Stats := [{ BaseStat := 48, Stat := { Name := "hp" } },
              { BaseStat := 48, Stat := { Name := "attack" } }] }

/-- An abridged record for `mew`, with one stat more than the two above. -/
def mew : PokemonResponse :=
  { Name := "mew", Height := 4, Weight := 40,
    Types := [{ Type_ := { Name := "psychic" } }],
    Stats := [{ BaseStat := 100, Stat := { Name := "hp" } },
              { BaseStat := 101, Stat := { Name := "attack" } },
              { BaseStat := 102, Stat := { Name := "defense" } }] }

/-- The record `encoding/json` decodes from the body `{}`: no field is set. -/
def emptyRecord : PokemonResponse :=
  { Name := "", Height := 0, Weight := 0, Types := [], Stats := [] }

/-- The body standing for the JSON text of `pikachu`. -/
def pikachuBody : Body := { bytes := [1], readErr := none }

/-- The body standing for the JSON text of `ditto`. -/
def dittoBody : Body := { bytes := [2], readErr := none }

/-- The body standing for the JSON text of `mew`. -/
def mewBody : Body := { bytes := [3], readErr := none }

/-- The body `{}`. -/
def emptyObjectBody : Body := { bytes := [0x7B, 0x7D], readErr := none }

/-- A decoder for the examples: it knows the four bodies above and rejects the rest. -/
def exampleDecode (body : Body) : Except String PokemonResponse :=
  if body.bytes = [1] then Except.ok pikachu
  else if body.bytes = [2] then Except.ok ditto
  else if body.bytes = [3] then Except.ok mew
  else if body.bytes = [0x7B, 0x7D] then Except.ok emptyRecord
  else Except.error "invalid character 'N' looking for beginning of value"

/-- The environment of the examples. -/
def exampleEnv : Env :=
  { unicode := asciiTables, jsonDecode := exampleDecode }

/-- An upstream that knows `pikachu`, `ditto` and `mew`, answers `{}` for `missingno`,
cannot be reached for `offline`, and answers 404 otherwise. -/
def exampleUpstream (_k : Nat) (url : String) : HttpReply :=
  if url = "https://pokeapi.co/api/v2/pokemon/pikachu" then HttpReply.response 200 pikachuBody
  else if url = "https://pokeapi.co/api/v2/pokemon/ditto" then HttpReply.response 200 dittoBody
  else if url = "https://pokeapi.co/api/v2/pokemon/mew" then HttpReply.response 200 mewBody
  else if url = "https://pokeapi.co/api/v2/pokemon/missingno" then
    HttpReply.response 200 emptyObjectBody
  else if url = "https://pokeapi.co/api/v2/pokemon/offline" then
    HttpReply.failed "dial tcp: lookup pokeapi.co: no such host"
  else HttpReply.response 404 { bytes := [], readErr := none }

/-- The network of the examples, before any request. -/
def exampleNet : Net :=
  { upstream := exampleUpstream, requests := [] }

/-- The argument mapping `{"name": name}`. -/
def nameArgs (name : String) : Arguments :=
  fun key => if key = "name" then some (Value.string name) else none

/-- The argument mapping `{"pokemon1": pokemon1, "pokemon2": pokemon2}`. -/
def pairArgs (pokemon1 pokemon2 : String) : Arguments :=
  fun key =>
    if key = "pokemon1" then some (Value.string pokemon1)
    else if key = "pokemon2" then some (Value.string pokemon2)
    else none

/-! ## Auxiliary lemmas -/

/-- Appending one piece per element, left to right, is appending the joined pieces. -/
theorem foldl_append_join {α : Type} (f : α → String) (xs : List α) (init : String) :
    List.foldl (fun acc x => acc ++ f x) init xs = init ++ String.join (xs.map f) := by
  induction xs generalizing init with
  | nil => simp [String.join]
  | cons x xs ih =>
    simp only [List.foldl_cons, List.map_cons]
    rw [ih, String.join_eq, String.join_eq]
    apply String.ext
    simp

/-- The accumulator loop of `String.intercalate`, in closed form. -/
theorem intercalate_go (acc sep : String) (xs : List String) :
    String.intercalate.go acc sep xs = acc ++ String.join (xs.map (fun x => sep ++ x)) := by
  induction xs generalizing acc with
  | nil => simp [String.intercalate.go, String.join]
  | cons x xs ih =>
    simp only [String.intercalate.go, List.map_cons]
    rw [ih, String.join_eq, String.join_eq]
    apply String.ext
    simp

/-- The model of `strings.Join` is the library's `String.intercalate`. -/
theorem Join_eq_intercalate (xs : List String) (sep : String) :
    strings.Join xs sep = String.intercalate sep xs := by
  induction xs with
  | nil => rfl
  | cons a rest ih =>
    cases rest with
    | nil => simp [strings.Join, String.intercalate, String.intercalate.go]
    | cons b rest =>
      simp only [strings.Join, ih]
      simp only [String.intercalate, intercalate_go, List.map_cons]
      rw [String.join_eq, String.join_eq]
      apply String.ext
      simp

/-- When `p2` has at least as many stats as `p1`, the loop entered at `i` ends
normally, having appended one line per remaining index. -/
theorem compareLoop_ok (p1 p2 : PokemonResponse) (hlen : p1.Stats.length ≤ p2.Stats.length) :
    ∀ (n i : Nat) (acc : String), p1.Stats.length - i = n →
      compareLoop p1 p2 i acc =
        Except.ok (acc ++ String.join
          (List.zipWith compareLine (p1.Stats.drop i) (p2.Stats.drop i))) := by
  intro n
  induction n with
  | zero =>
    intro i acc hn
    have hi : p1.Stats.length ≤ i := by omega
    rw [compareLoop]
    simp [Nat.not_lt.mpr hi, List.drop_eq_nil_of_le hi, String.join]
  | succ n ih =>
    intro i acc hn
    have hi : i < p1.Stats.length := by omega
    have hi2 : i < p2.Stats.length := by omega
    rw [compareLoop]
    simp only [hi, dite_true, List.getElem?_eq_getElem hi2]
    rw [ih (i + 1) _ (by omega), List.drop_eq_getElem_cons hi, List.drop_eq_getElem_cons hi2]
    simp only [List.zipWith_cons_cons]
    rw [String.join_eq, String.join_eq]
    congr 1
    apply String.ext
    simp

/-- When `p2` has fewer stats than `p1`, the loop entered at an index `p2` still
has stops at index `len(p2.Stats)` with an index out of range. -/
theorem compareLoop_fault (p1 p2 : PokemonResponse) (hlen : p2.Stats.length < p1.Stats.length) :
    ∀ (n i : Nat) (acc : String), p2.Stats.length - i = n → i ≤ p2.Stats.length →
      compareLoop p1 p2 i acc =
        Except.error ("runtime error: index out of range [" ++ toString p2.Stats.length ++
          "] with length " ++ toString p2.Stats.length) := by
  intro n
  induction n with
  | zero =>
    intro i acc hn hi
    have hi2 : i = p2.Stats.length := by omega
    subst hi2
    rw [compareLoop]
    simp [hlen]
  | succ n ih =>
    intro i acc hn hi
    have hi1 : i < p1.Stats.length := by omega
    have hi2 : i < p2.Stats.length := by omega
    rw [compareLoop]
    simp only [hi1, dite_true, List.getElem?_eq_getElem hi2]
    exact ih (i + 1) _ (by omega) (by omega)

/-- Whatever it returns, `fetchPokemon` makes exactly one `http.Get`, for `fetchURL`. -/
theorem fetchPokemon_net (env : Env) (name : String) (net : Net) :
    (fetchPokemon env name net).2 =
      { net with requests := net.requests ++ [fetchURL env.unicode name] } := by
  unfold fetchPokemon http.Get
  split
  · next h => simp only [Prod.mk.injEq] at h; simp [← h.2]
  · next h =>
    simp only [Prod.mk.injEq] at h
    split
    · simp [← h.2]
    · split <;> simp [← h.2]

/-- The stat line of `getPokemonHandler`, written out. -/
theorem statLine_eq :
    statLine = fun s => s.Stat.Name ++ ": " ++ toString s.BaseStat ++ "\n" := by
  funext s
  rfl

/-- The stat line of `comparePokemonHandler`, written out. -/
theorem compareLine_eq :
    compareLine = fun s1 s2 =>
      s1.Stat.Name ++ ": " ++ toString s1.BaseStat ++ " vs " ++ toString s2.BaseStat ++ "\n" := by
  funext s1 s2
  rfl

/-! ## The claims -/

/-- C1: when the argument `name` is a string and its fetch succeeds with record
`r`, `getPokemonHandler` returns the text result made of the fixed template
(title-cased name, height, weight, type names joined by `", "`) followed by one
line `"<stat name>: <value>\n"` per stat of `r`, in record order, and nothing
else; there are exactly `len(r.Stats)` such lines. -/
theorem getPokemonHandler_renders_template (env : Env) (arguments : Arguments)
    (net net1 : Net) (name : String) (r : PokemonResponse)
    (hname : arguments "name" = some (Value.string name))
    (hfetch : fetchPokemon env name net = (Except.ok r, net1)) :
    getPokemonHandler env arguments net =
      (Outcome.returned
        { Content := [{ Type_ := "text",
                        Text := "🔍 Pokemon Information for " ++ strings.Title env.unicode r.Name ++
                          ":\n\nHeight: " ++ toString r.Height ++
                          " decimeters\nWeight: " ++ toString r.Weight ++
                          " hectograms\nTypes: " ++
                          String.intercalate ", " (r.Types.map (fun t => t.Type_.Name)) ++
                          "\n\nBase Stats:\n" ++
                          String.join (r.Stats.map
                            (fun s => s.Stat.Name ++ ": " ++ toString s.BaseStat ++ "\n")) }],
          IsError := false } none, net1)
    ∧ (r.Stats.map (fun s => s.Stat.Name ++ ": " ++ toString s.BaseStat ++ "\n")).length
        = r.Stats.length := by
  refine ⟨?_, List.length_map _ _⟩
  unfold getPokemonHandler
  simp only [hname, hfetch, foldl_append_join, infoHeader, Join_eq_intercalate,
    mcp.NewToolResultText, fmtInt]
  have e1 : (":\n\n" : String) ++ "Height: " = ":\n\nHeight: " := by decide
  have e2 : (" decimeters\n" : String) ++ "Weight: " = " decimeters\nWeight: " := by decide
  have e3 : (" hectograms\n" : String) ++ "Types: " = " hectograms\nTypes: " := by decide
  have e4 : ("\n\n" : String) ++ "Base Stats:\n" = "\n\nBase Stats:\n" := by decide
  simp only [← e1, ← e2, ← e3, ← e4, statLine_eq, String.append_assoc]

/-- C1 at `{"name": "Pikachu"}` against the example upstream: the full text. -/
theorem getPokemonHandler_renders_template_witness :
    getPokemonHandler exampleEnv (nameArgs "Pikachu") exampleNet =
      (Outcome.returned
        { Content := [{ Type_ := "text",
                        Text := "🔍 Pokemon Information for Pikachu:\n\nHeight: 4 decimeters\n" ++
                          "Weight: 60 hectograms\nTypes: electric\n\nBase Stats:\n" ++
                          "hp: 35\nattack: 55\n" }],
          IsError := false } none,
        { exampleNet with requests := ["https://pokeapi.co/api/v2/pokemon/pikachu"] }) :=
  (getPokemonHandler_renders_template exampleEnv (nameArgs "Pikachu") exampleNet
    { exampleNet with requests := ["https://pokeapi.co/api/v2/pokemon/pikachu"] }
    "Pikachu" pikachu rfl rfl).1.trans rfl

/-- C2: when both arguments are strings and both fetches succeed, with records
`a` and `b` whose stat lists have the same length, `comparePokemonHandler`
returns the text result made of the header naming both title-cased names
followed by one line `"<a.stats[i].name>: <a.stats[i].value> vs <b.stats[i].value>\n"`
per index, in order (exactly `len(a.Stats)` lines); and a run in which the second
record is any `b2` with the name and the stat values of `b`, whatever its stat
names, height, weight and types, returns the same result. -/
theorem comparePokemonHandler_renders_pairs (env : Env) (arguments : Arguments)
    (net net1 net2 : Net) (pokemon1 pokemon2 : String) (a b : PokemonResponse)
    (h1 : arguments "pokemon1" = some (Value.string pokemon1))
    (h2 : arguments "pokemon2" = some (Value.string pokemon2))
    (hf1 : fetchPokemon env pokemon1 net = (Except.ok a, net1))
    (hf2 : fetchPokemon env pokemon2 net1 = (Except.ok b, net2))
    (hlen : a.Stats.length = b.Stats.length) :
    comparePokemonHandler env arguments net =
      (Outcome.returned
        { Content := [{ Type_ := "text",
                        Text := "⚔️ Pokemon Comparison: " ++ strings.Title env.unicode a.Name ++
                          " vs " ++ strings.Title env.unicode b.Name ++
                          "\n\nBase Stats Comparison:\n" ++
                          String.join (List.zipWith
                            (fun s1 s2 => s1.Stat.Name ++ ": " ++ toString s1.BaseStat ++
                              " vs " ++ toString s2.BaseStat ++ "\n") a.Stats b.Stats) }],
          IsError := false } none, net2)
    ∧ (List.zipWith
        (fun s1 s2 => s1.Stat.Name ++ ": " ++ toString s1.BaseStat ++
          " vs " ++ toString s2.BaseStat ++ "\n") a.Stats b.Stats).length = a.Stats.length
    ∧ ∀ (other other1 other2 : Net) (b2 : PokemonResponse),
        fetchPokemon env pokemon1 other = (Except.ok a, other1) →
        fetchPokemon env pokemon2 other1 = (Except.ok b2, other2) →
        b2.Name = b.Name →
        b2.Stats.map (fun s => s.BaseStat) = b.Stats.map (fun s => s.BaseStat) →
        (comparePokemonHandler env arguments other).1 =
          (comparePokemonHandler env arguments net).1 := by
  have key : ∀ (n n1 n2 : Net) (c : PokemonResponse),
      fetchPokemon env pokemon1 n = (Except.ok a, n1) →
      fetchPokemon env pokemon2 n1 = (Except.ok c, n2) →
      a.Stats.length = c.Stats.length →
      comparePokemonHandler env arguments n =
        (Outcome.returned
          { Content := [{ Type_ := "text",
                          Text := "⚔️ Pokemon Comparison: " ++ strings.Title env.unicode a.Name ++
                            " vs " ++ strings.Title env.unicode c.Name ++
                            "\n\nBase Stats Comparison:\n" ++
                            String.join (List.zipWith
                              (fun s1 s2 => s1.Stat.Name ++ ": " ++ toString s1.BaseStat ++
                                " vs " ++ toString s2.BaseStat ++ "\n") a.Stats c.Stats) }],
            IsError := false } none, n2) := by
    intro n n1 n2 c g1 g2 gl
    unfold comparePokemonHandler
    simp only [h1, h2, g1, g2, compareLoop_ok a c (Nat.le_of_eq gl) _ 0 _ rfl,
      List.drop_zero, compareHeader, mcp.NewToolResultText, compareLine_eq]
    have e1 : ("\n\n" : String) ++ "Base Stats Comparison:\n" = "\n\nBase Stats Comparison:\n" := by
      decide
    simp only [← e1, String.append_assoc]
  refine ⟨key net net1 net2 b hf1 hf2 hlen, ?_, ?_⟩
  · simp [List.length_zipWith, hlen]
  · intro other other1 other2 b2 g1 g2 hn hv
    have hl2 : a.Stats.length = b2.Stats.length := by
      have := congrArg List.length hv
      simp only [List.length_map] at this
      omega
    rw [key other other1 other2 b2 g1 g2 hl2, key net net1 net2 b hf1 hf2 hlen, hn]
    have hz : ∀ (xs : List StatSlot) (ys zs : List StatSlot),
        ys.map (fun s => s.BaseStat) = zs.map (fun s => s.BaseStat) →
        List.zipWith (fun s1 s2 => s1.Stat.Name ++ ": " ++ toString s1.BaseStat ++
            " vs " ++ toString s2.BaseStat ++ "\n") xs ys =
          List.zipWith (fun s1 s2 => s1.Stat.Name ++ ": " ++ toString s1.BaseStat ++
            " vs " ++ toString s2.BaseStat ++ "\n") xs zs := by
      intro xs
      induction xs with
      | nil => intro ys zs _; simp
      | cons x xs ih =>
        intro ys zs hyz
        cases ys with
        | nil =>
          cases zs with
          | nil => rfl
          | cons z zs => simp at hyz
        | cons y ys =>
          cases zs with
          | nil => simp at hyz
          | cons z zs =>
            simp only [List.map_cons, List.cons.injEq] at hyz
            simp only [List.zipWith_cons_cons, hyz.1, ih ys zs hyz.2]
    rw [hz a.Stats b2.Stats b.Stats hv]

/-- C2 at `{"pokemon1": "Pikachu", "pokemon2": "ditto"}` against the example upstream:
the full text. -/
theorem comparePokemonHandler_renders_pairs_witness :
    comparePokemonHandler exampleEnv (pairArgs "Pikachu" "ditto") exampleNet =
      (Outcome.returned
        { Content := [{ Type_ := "text",
                        Text := "⚔️ Pokemon Comparison: Pikachu vs Ditto\n\n" ++
                          "Base Stats Comparison:\nhp: 35 vs 48\nattack: 55 vs 48\n" }],
          IsError := false } none,
        { exampleNet with requests := ["https://pokeapi.co/api/v2/pokemon/pikachu",
                                       "https://pokeapi.co/api/v2/pokemon/ditto"] }) :=
  (comparePokemonHandler_renders_pairs exampleEnv (pairArgs "Pikachu" "ditto") exampleNet
    { exampleNet with requests := ["https://pokeapi.co/api/v2/pokemon/pikachu"] }
    { exampleNet with requests := ["https://pokeapi.co/api/v2/pokemon/pikachu",
                                   "https://pokeapi.co/api/v2/pokemon/ditto"] }
    "Pikachu" "ditto" pikachu ditto rfl rfl rfl rfl rfl).1.trans rfl

/-- C3: when `name` is absent from the argument mapping or bound to a value that
is not a string, `getPokemonHandler` returns the tool-error result with text
exactly `"name must be a string"` and a nil error, and the network state is
untouched: no `http.Get` was made. -/
theorem getPokemonHandler_rejects_bad_name (env : Env) (arguments : Arguments) (net : Net)
    (hbad : ∀ s : String, arguments "name" ≠ some (Value.string s)) :
    getPokemonHandler env arguments net =
      (Outcome.returned
        { Content := [{ Type_ := "text", Text := "name must be a string" }],
          IsError := true } none, net) := by
  unfold getPokemonHandler
  split
  · next name h => exact absurd h (hbad name)
  · rfl

/-- C3 at the empty mapping and at `{"name": 25}`. -/
theorem getPokemonHandler_rejects_bad_name_witness :
    getPokemonHandler exampleEnv (fun _ => none) exampleNet =
      (Outcome.returned
        { Content := [{ Type_ := "text", Text := "name must be a string" }],
          IsError := true } none, exampleNet)
    ∧ getPokemonHandler exampleEnv
        (fun key => if key = "name" then some (Value.number 0x4039000000000000) else none)
        exampleNet =
      (Outcome.returned
        { Content := [{ Type_ := "text", Text := "name must be a string" }],
          IsError := true } none, exampleNet) :=
  ⟨getPokemonHandler_rejects_bad_name exampleEnv (fun _ => none) exampleNet
      (fun _ h => Option.noConfusion h),
   getPokemonHandler_rejects_bad_name exampleEnv
      (fun key => if key = "name" then some (Value.number 0x4039000000000000) else none)
      exampleNet (fun _ h => by simp at h)⟩

/-- C4: when `name` is a string, (1) a failed fetch with error `err` makes
`getPokemonHandler` return the tool-error result with text
`"Error fetching Pokemon: " ++ err`; (2) when the upstream answers the request
with a status code `c` other than 200, the text is exactly
`"Error fetching Pokemon: API returned status code <c>"` for every body and every
decoder, the result is an error result (no record is formatted), and exactly one
request was made. -/
theorem getPokemonHandler_fetch_error (env : Env) (arguments : Arguments) (net : Net)
    (name : String) (hname : arguments "name" = some (Value.string name)) :
    (∀ (err : String) (net1 : Net), fetchPokemon env name net = (Except.error err, net1) →
      getPokemonHandler env arguments net =
        (Outcome.returned
          { Content := [{ Type_ := "text", Text := "Error fetching Pokemon: " ++ err }],
            IsError := true } none, net1))
    ∧ (∀ (c : Int) (body : Body),
        net.upstream net.requests.length
          ("https://pokeapi.co/api/v2/pokemon/" ++ strings.ToLower env.unicode name) =
            HttpReply.response c body →
        c ≠ 200 →
        getPokemonHandler env arguments net =
          (Outcome.returned
            { Content := [{ Type_ := "text",
                            Text := "Error fetching Pokemon: API returned status code " ++
                              toString c }],
              IsError := true } none,
            { net with requests := net.requests ++
                ["https://pokeapi.co/api/v2/pokemon/" ++ strings.ToLower env.unicode name] })) := by
  have part1 : ∀ (err : String) (net1 : Net),
      fetchPokemon env name net = (Except.error err, net1) →
      getPokemonHandler env arguments net =
        (Outcome.returned
          { Content := [{ Type_ := "text", Text := "Error fetching Pokemon: " ++ err }],
            IsError := true } none, net1) := by
    intro err net1 hf
    unfold getPokemonHandler
    simp only [hname, hf, mcp.NewToolResultError]
  refine ⟨part1, ?_⟩
  intro c body hup hc
  have hf : fetchPokemon env name net =
      (Except.error ("API returned status code " ++ toString c),
        { net with requests := net.requests ++
            ["https://pokeapi.co/api/v2/pokemon/" ++ strings.ToLower env.unicode name] }) := by
    unfold fetchPokemon http.Get fetchURL
    simp only [hup, http.StatusOK, ne_eq, hc, not_false_eq_true, if_true, fmtInt]
  rw [part1 _ _ hf]
  have e1 : ("Error fetching Pokemon: " : String) ++ "API returned status code " =
      "Error fetching Pokemon: API returned status code " := by decide
  rw [← e1, String.append_assoc]

/-- C4 at `{"name": "MewThree"}` (the example upstream answers 404) and at
`{"name": "offline"}` (the transport fails). -/
theorem getPokemonHandler_fetch_error_witness :
    getPokemonHandler exampleEnv (nameArgs "offline") exampleNet =
      (Outcome.returned
        { Content := [{ Type_ := "text",
                        Text := "Error fetching Pokemon: dial tcp: lookup pokeapi.co: no such host" }],
          IsError := true } none,
        { exampleNet with requests := ["https://pokeapi.co/api/v2/pokemon/offline"] })
    ∧ getPokemonHandler exampleEnv (nameArgs "MewThree") exampleNet =
      (Outcome.returned
        { Content := [{ Type_ := "text",
                        Text := "Error fetching Pokemon: API returned status code 404" }],
          IsError := true } none,
        { exampleNet with requests := ["https://pokeapi.co/api/v2/pokemon/mewthree"] }) :=
  ⟨((getPokemonHandler_fetch_error exampleEnv (nameArgs "offline") exampleNet "offline" rfl).1
      "dial tcp: lookup pokeapi.co: no such host"
      { exampleNet with requests := ["https://pokeapi.co/api/v2/pokemon/offline"] } rfl).trans rfl,
   ((getPokemonHandler_fetch_error exampleEnv (nameArgs "MewThree") exampleNet "MewThree" rfl).2
      404 { bytes := [], readErr := none } rfl (by decide)).trans rfl⟩

/-- C5: `comparePokemonHandler` validates before it fetches.  (1) When `pokemon1`
is absent or not a string, whatever `pokemon2` is, the result is the tool error
with text exactly `"pokemon1 must be a string"`; (2) when `pokemon1` is a string
and `pokemon2` is absent or not a string, it is the tool error with text exactly
`"pokemon2 must be a string"`.  In both cases the error is nil and the network
state is untouched: no `http.Get` was made, not even for a valid `pokemon1`. -/
theorem comparePokemonHandler_validates_first (env : Env) (arguments : Arguments) (net : Net) :
    ((∀ s : String, arguments "pokemon1" ≠ some (Value.string s)) →
      comparePokemonHandler env arguments net =
        (Outcome.returned
          { Content := [{ Type_ := "text", Text := "pokemon1 must be a string" }],
            IsError := true } none, net))
    ∧ ((∃ s : String, arguments "pokemon1" = some (Value.string s)) →
        (∀ s : String, arguments "pokemon2" ≠ some (Value.string s)) →
        comparePokemonHandler env arguments net =
          (Outcome.returned
            { Content := [{ Type_ := "text", Text := "pokemon2 must be a string" }],
              IsError := true } none, net)) := by
  constructor
  · intro hbad
    unfold comparePokemonHandler
    split
    · next s h => exact absurd h (hbad s)
    · rfl
  · intro hok hbad
    obtain ⟨s1, hs1⟩ := hok
    have hnone : ∀ v : Value, arguments "pokemon2" = some v →
        ∀ s : String, v ≠ Value.string s := by
      intro v hv s hs
      exact hbad s (hs ▸ hv)
    unfold comparePokemonHandler
    rw [hs1]
    cases hv : arguments "pokemon2" with
    | none => rfl
    | some v =>
      cases v with
      | string s => exact absurd rfl (hnone _ hv s)
      | _ => rfl

/-- C5 at `{"pokemon1": true}` (both arguments invalid) and at
`{"pokemon1": "pikachu", "pokemon2": null}`. -/
theorem comparePokemonHandler_validates_first_witness :
    comparePokemonHandler exampleEnv
        (fun key => if key = "pokemon1" then some (Value.bool true) else none) exampleNet =
      (Outcome.returned
        { Content := [{ Type_ := "text", Text := "pokemon1 must be a string" }],
          IsError := true } none, exampleNet)
    ∧ comparePokemonHandler exampleEnv
        (fun key => if key = "pokemon1" then some (Value.string "pikachu")
          else if key = "pokemon2" then some Value.null else none) exampleNet =
      (Outcome.returned
        { Content := [{ Type_ := "text", Text := "pokemon2 must be a string" }],
          IsError := true } none, exampleNet) :=
  ⟨(comparePokemonHandler_validates_first exampleEnv
      (fun key => if key = "pokemon1" then some (Value.bool true) else none) exampleNet).1
      (fun _ h => by simp at h),
   (comparePokemonHandler_validates_first exampleEnv
      (fun key => if key = "pokemon1" then some (Value.string "pikachu")
        else if key = "pokemon2" then some Value.null else none) exampleNet).2
      ⟨"pikachu", rfl⟩ (fun _ h => by simp at h)⟩

/-- C6: when both arguments are strings, `comparePokemonHandler` asks for
`pokemon1` first and `pokemon2` second.  (1) If the first fetch fails with `err`,
the result is the tool error with text `"Error fetching <pokemon1>: <err>"` and the
only request made is the one for `pokemon1`; (2) if the first fetch succeeds and
the second fails with `err`, the text is `"Error fetching <pokemon2>: <err>"` and the
requests made are the one for `pokemon1` followed by the one for `pokemon2`.  The name
in the text is the argument as supplied, not its lower-casing.  (3) In every run the
requests added to the log are the one for `pokemon1`, followed by nothing or by the
one for `pokemon2`. -/
theorem comparePokemonHandler_fetch_errors (env : Env) (arguments : Arguments) (net : Net)
    (pokemon1 pokemon2 : String)
    (h1 : arguments "pokemon1" = some (Value.string pokemon1))
    (h2 : arguments "pokemon2" = some (Value.string pokemon2)) :
    (∀ (err : String) (net1 : Net),
      fetchPokemon env pokemon1 net = (Except.error err, net1) →
      comparePokemonHandler env arguments net =
        (Outcome.returned
          { Content := [{ Type_ := "text",
                          Text := "Error fetching " ++ pokemon1 ++ ": " ++ err }],
            IsError := true } none, net1)
      ∧ net1.requests = net.requests ++ [fetchURL env.unicode pokemon1])
    ∧ (∀ (p1 : PokemonResponse) (net1 : Net) (err : String) (net2 : Net),
        fetchPokemon env pokemon1 net = (Except.ok p1, net1) →
        fetchPokemon env pokemon2 net1 = (Except.error err, net2) →
        comparePokemonHandler env arguments net =
          (Outcome.returned
            { Content := [{ Type_ := "text",
                            Text := "Error fetching " ++ pokemon2 ++ ": " ++ err }],
              IsError := true } none, net2)
        ∧ net2.requests =
            net.requests ++ [fetchURL env.unicode pokemon1, fetchURL env.unicode pokemon2])
    ∧ ((comparePokemonHandler env arguments net).2.requests =
          net.requests ++ [fetchURL env.unicode pokemon1]
        ∨ (comparePokemonHandler env arguments net).2.requests =
          net.requests ++ [fetchURL env.unicode pokemon1, fetchURL env.unicode pokemon2]) := by
  refine ⟨?_, ?_, ?_⟩
  · intro err net1 hf
    constructor
    · unfold comparePokemonHandler
      simp only [h1, h2, hf, mcp.NewToolResultError]
    · have := fetchPokemon_net env pokemon1 net
      rw [hf] at this
      simp only at this
      rw [this]
  · intro p1 net1 err net2 hf1 hf2
    constructor
    · unfold comparePokemonHandler
      simp only [h1, h2, hf1, hf2, mcp.NewToolResultError]
    · have e1 := fetchPokemon_net env pokemon1 net
      have e2 := fetchPokemon_net env pokemon2 net1
      rw [hf1] at e1
      rw [hf2] at e2
      simp only at e1 e2
      rw [e2, e1]
      simp
  · have e1 := fetchPokemon_net env pokemon1 net
    rcases hf1 : fetchPokemon env pokemon1 net with ⟨r1, net1⟩
    rw [hf1] at e1
    simp only at e1
    cases r1 with
    | error err =>
      left
      unfold comparePokemonHandler
      simp only [h1, h2, hf1, e1]
    | ok p1 =>
      right
      have e2 := fetchPokemon_net env pokemon2 net1
      rcases hf2 : fetchPokemon env pokemon2 net1 with ⟨r2, net2⟩
      rw [hf2] at e2
      simp only at e2
      have e3 : net2.requests =
          net.requests ++ [fetchURL env.unicode pokemon1, fetchURL env.unicode pokemon2] := by
        rw [e2, e1]
        simp
      unfold comparePokemonHandler
      cases r2 with
      | error err => simp only [h1, h2, hf1, hf2, e3]
      | ok p2 =>
        simp only [h1, h2, hf1, hf2]
        split <;> exact e3

/-- C6 at `{"pokemon1": "MewThree", "pokemon2": "ditto"}` (the first fetch fails
with 404) and at `{"pokemon1": "Pikachu", "pokemon2": "OFFLINE"}` (the second fetch
fails in transport). -/
theorem comparePokemonHandler_fetch_errors_witness :
    comparePokemonHandler exampleEnv (pairArgs "MewThree" "ditto") exampleNet =
      (Outcome.returned
        { Content := [{ Type_ := "text",
                        Text := "Error fetching MewThree: API returned status code 404" }],
          IsError := true } none,
        { exampleNet with requests := ["https://pokeapi.co/api/v2/pokemon/mewthree"] })
    ∧ comparePokemonHandler exampleEnv (pairArgs "Pikachu" "OFFLINE") exampleNet =
      (Outcome.returned
        { Content := [{ Type_ := "text",
                        Text := "Error fetching OFFLINE: dial tcp: lookup pokeapi.co: no such host" }],
          IsError := true } none,
        { exampleNet with requests := ["https://pokeapi.co/api/v2/pokemon/pikachu",
                                       "https://pokeapi.co/api/v2/pokemon/offline"] }) :=
  ⟨(((comparePokemonHandler_fetch_errors exampleEnv (pairArgs "MewThree" "ditto") exampleNet
        "MewThree" "ditto" rfl rfl).1
      "API returned status code 404"
      { exampleNet with requests := ["https://pokeapi.co/api/v2/pokemon/mewthree"] } rfl).1).trans
      rfl,
   (((comparePokemonHandler_fetch_errors exampleEnv (pairArgs "Pikachu" "OFFLINE") exampleNet
        "Pikachu" "OFFLINE" rfl rfl).2.1 pikachu
      { exampleNet with requests := ["https://pokeapi.co/api/v2/pokemon/pikachu"] }
      "dial tcp: lookup pokeapi.co: no such host"
      { exampleNet with requests := ["https://pokeapi.co/api/v2/pokemon/pikachu",
                                     "https://pokeapi.co/api/v2/pokemon/offline"] }
      rfl rfl).1).trans rfl⟩

/-- Pairing with the first `len(xs)` elements of `ys` is pairing with `ys`. -/
theorem zipWith_take_length {α β γ : Type} (f : α → β → γ) (xs : List α) (ys : List β) :
    List.zipWith f xs (ys.take xs.length) = List.zipWith f xs ys := by
  induction xs generalizing ys with
  | nil => simp
  | cons x xs ih =>
    cases ys with
    | nil => simp
    | cons y ys => simp [ih]

/-- Every run of `getPokemonHandler` returns a result with a nil error. -/
theorem getPokemonHandler_returns (env : Env) (arguments : Arguments) (net : Net) :
    ∃ result : CallToolResult,
      (getPokemonHandler env arguments net).1 = Outcome.returned result none := by
  unfold getPokemonHandler
  split
  · split
    · exact ⟨_, rfl⟩
    · exact ⟨_, rfl⟩
  · exact ⟨_, rfl⟩

/-- C7 (the input on which it fails): `{"pokemon1": "pikachu", "pokemon2": "missingno"}`
against the example upstream, which answers 200 to both requests, the second time
with the body `{}` that decodes to a record without stats.  `comparePokemonHandler`
does not return: it panics at the first index. -/
theorem comparePokemonHandler_panics_on_short_stats :
    comparePokemonHandler exampleEnv (pairArgs "pikachu" "missingno") exampleNet =
      (Outcome.panicked "runtime error: index out of range [0] with length 0",
        { exampleNet with requests := ["https://pokeapi.co/api/v2/pokemon/pikachu",
                                       "https://pokeapi.co/api/v2/pokemon/missingno"] }) := by
  have hf1 : fetchPokemon exampleEnv "pikachu" exampleNet =
      (Except.ok pikachu,
        { exampleNet with requests := ["https://pokeapi.co/api/v2/pokemon/pikachu"] }) := rfl
  have hf2 : fetchPokemon exampleEnv "missingno"
      { exampleNet with requests := ["https://pokeapi.co/api/v2/pokemon/pikachu"] } =
      (Except.ok emptyRecord,
        { exampleNet with requests := ["https://pokeapi.co/api/v2/pokemon/pikachu",
                                       "https://pokeapi.co/api/v2/pokemon/missingno"] }) := rfl
  have ha1 : pairArgs "pikachu" "missingno" "pokemon1" = some (Value.string "pikachu") := rfl
  have ha2 : pairArgs "pikachu" "missingno" "pokemon2" = some (Value.string "missingno") := rfl
  have hloop := compareLoop_fault pikachu emptyRecord (by decide) 0 0
    (compareHeader exampleEnv.unicode pikachu emptyRecord) rfl (Nat.le_refl _)
  unfold comparePokemonHandler
  simp only [ha1, ha2, hf1, hf2, hloop]
  rfl

/-- C8: when both arguments are strings and both fetches succeed with records `a`
and `b`, `comparePokemonHandler` panics (index out of range) if and only if
`len(b.Stats) < len(a.Stats)`.  When `len(a.Stats) ≤ len(b.Stats)` it returns the text
made of the header and exactly `len(a.Stats)` lines, built from the stats of `a`
and the first `len(a.Stats)` stats of `b`; a run whose second record `b2` has the
name of `b` and agrees with `b` on those first stats returns the same result, so
the stats of `b` from index `len(a.Stats)` on are ignored. -/
theorem comparePokemonHandler_index_bounds (env : Env) (arguments : Arguments)
    (net net1 net2 : Net) (pokemon1 pokemon2 : String) (a b : PokemonResponse)
    (h1 : arguments "pokemon1" = some (Value.string pokemon1))
    (h2 : arguments "pokemon2" = some (Value.string pokemon2))
    (hf1 : fetchPokemon env pokemon1 net = (Except.ok a, net1))
    (hf2 : fetchPokemon env pokemon2 net1 = (Except.ok b, net2)) :
    ((∃ msg : String, (comparePokemonHandler env arguments net).1 = Outcome.panicked msg)
        ↔ b.Stats.length < a.Stats.length)
    ∧ (a.Stats.length ≤ b.Stats.length →
        (comparePokemonHandler env arguments net).1 =
          Outcome.returned
            { Content := [{ Type_ := "text",
                            Text := "⚔️ Pokemon Comparison: " ++ strings.Title env.unicode a.Name ++
                              " vs " ++ strings.Title env.unicode b.Name ++
                              "\n\nBase Stats Comparison:\n" ++
                              String.join (List.zipWith
                                (fun s1 s2 => s1.Stat.Name ++ ": " ++ toString s1.BaseStat ++
                                  " vs " ++ toString s2.BaseStat ++ "\n")
                                a.Stats (b.Stats.take a.Stats.length)) }],
              IsError := false } none
        ∧ (List.zipWith
            (fun s1 s2 => s1.Stat.Name ++ ": " ++ toString s1.BaseStat ++
              " vs " ++ toString s2.BaseStat ++ "\n")
            a.Stats (b.Stats.take a.Stats.length)).length = a.Stats.length
        ∧ ∀ (other other1 other2 : Net) (b2 : PokemonResponse),
            fetchPokemon env pokemon1 other = (Except.ok a, other1) →
            fetchPokemon env pokemon2 other1 = (Except.ok b2, other2) →
            b2.Name = b.Name →
            b2.Stats.take a.Stats.length = b.Stats.take a.Stats.length →
            (comparePokemonHandler env arguments other).1 =
              (comparePokemonHandler env arguments net).1) := by
  have key : ∀ (n n1 n2 : Net) (c : PokemonResponse),
      fetchPokemon env pokemon1 n = (Except.ok a, n1) →
      fetchPokemon env pokemon2 n1 = (Except.ok c, n2) →
      a.Stats.length ≤ c.Stats.length →
      (comparePokemonHandler env arguments n).1 =
        Outcome.returned
          { Content := [{ Type_ := "text",
                          Text := "⚔️ Pokemon Comparison: " ++ strings.Title env.unicode a.Name ++
                            " vs " ++ strings.Title env.unicode c.Name ++
                            "\n\nBase Stats Comparison:\n" ++
                            String.join (List.zipWith
                              (fun s1 s2 => s1.Stat.Name ++ ": " ++ toString s1.BaseStat ++
                                " vs " ++ toString s2.BaseStat ++ "\n")
                              a.Stats (c.Stats.take a.Stats.length)) }],
            IsError := false } none := by
    intro n n1 n2 c g1 g2 gl
    unfold comparePokemonHandler
    simp only [h1, h2, g1, g2, compareLoop_ok a c gl _ 0 _ rfl,
      List.drop_zero, compareHeader, mcp.NewToolResultText, compareLine_eq,
      zipWith_take_length]
    have e1 : ("\n\n" : String) ++ "Base Stats Comparison:\n" = "\n\nBase Stats Comparison:\n" := by
      decide
    simp only [← e1, String.append_assoc]
  refine ⟨?_, ?_⟩
  · constructor
    · intro hp
      by_contra hge
      obtain ⟨msg, hmsg⟩ := hp
      rw [key net net1 net2 b hf1 hf2 (Nat.le_of_not_lt hge)] at hmsg
      exact Outcome.noConfusion hmsg
    · intro hlt
      refine ⟨"runtime error: index out of range [" ++ toString b.Stats.length ++
        "] with length " ++ toString b.Stats.length, ?_⟩
      unfold comparePokemonHandler
      simp only [h1, h2, hf1, hf2, compareLoop_fault a b hlt _ 0 _ rfl (Nat.zero_le _)]
  · intro hle
    refine ⟨key net net1 net2 b hf1 hf2 hle, ?_, ?_⟩
    · simp [List.length_zipWith, List.length_take, hle]
    · intro other other1 other2 b2 g1 g2 hn ht
      have hle2 : a.Stats.length ≤ b2.Stats.length := by
        have := congrArg List.length ht
        simp only [List.length_take] at this
        omega
      rw [key other other1 other2 b2 g1 g2 hle2, key net net1 net2 b hf1 hf2 hle, hn, ht]

/-- C8 at `{"pokemon1": "pikachu", "pokemon2": "mew"}` against the example
upstream: the first record has two stats, the second has three, and the text has
two stat lines; the third stat of `mew` does not appear. -/
theorem comparePokemonHandler_index_bounds_witness :
    (comparePokemonHandler exampleEnv (pairArgs "pikachu" "mew") exampleNet).1 =
      Outcome.returned
        { Content := [{ Type_ := "text",
                        Text := "⚔️ Pokemon Comparison: Pikachu vs Mew\n\n" ++
                          "Base Stats Comparison:\nhp: 35 vs 100\nattack: 55 vs 101\n" }],
          IsError := false } none :=
  ((comparePokemonHandler_index_bounds exampleEnv (pairArgs "pikachu" "mew") exampleNet
    { exampleNet with requests := ["https://pokeapi.co/api/v2/pokemon/pikachu"] }
    { exampleNet with requests := ["https://pokeapi.co/api/v2/pokemon/pikachu",
                                   "https://pokeapi.co/api/v2/pokemon/mew"] }
    "pikachu" "mew" pikachu mew rfl rfl rfl rfl).2 (by decide)).1.trans rfl

/-- C9: the URL `fetchPokemon` asks for is exactly
`"https://pokeapi.co/api/v2/pokemon/"` followed by the lower-cased name, which is
the name with each rune lower-cased and nothing added, removed or escaped; so two
names with the same lower-casing give, from the same network state, the same fetch
result and the same `getPokemonHandler` result. -/
theorem fetchPokemon_lowercases_only (env : Env) (net : Net) (name name2 : String)
    (arguments arguments2 : Arguments)
    (hlow : strings.ToLower env.unicode name2 = strings.ToLower env.unicode name)
    (ha : arguments "name" = some (Value.string name))
    (ha2 : arguments2 "name" = some (Value.string name2)) :
    (fetchPokemon env name net).2.requests =
        net.requests ++ ["https://pokeapi.co/api/v2/pokemon/" ++ strings.ToLower env.unicode name]
    ∧ (strings.ToLower env.unicode name).data = name.data.map (unicode.ToLower env.unicode)
    ∧ (strings.ToLower env.unicode name).length = name.length
    ∧ fetchPokemon env name2 net = fetchPokemon env name net
    ∧ getPokemonHandler env arguments2 net = getPokemonHandler env arguments net := by
  have hurl : fetchURL env.unicode name2 = fetchURL env.unicode name := by
    unfold fetchURL
    rw [hlow]
  have hfetch : fetchPokemon env name2 net = fetchPokemon env name net := by
    unfold fetchPokemon
    rw [hurl]
  refine ⟨?_, rfl, ?_, hfetch, ?_⟩
  · rw [fetchPokemon_net]
    rfl
  · show (name.data.map (unicode.ToLower env.unicode)).length = name.data.length
    exact List.length_map _ _
  · unfold getPokemonHandler
    simp only [ha, ha2, hfetch]

/-- C9 at the names `"PIKACHU"` and `"Pikachu"`. -/
theorem fetchPokemon_lowercases_only_witness :
    (fetchPokemon exampleEnv "Pikachu" exampleNet).2.requests =
        ["https://pokeapi.co/api/v2/pokemon/pikachu"]
    ∧ fetchPokemon exampleEnv "PIKACHU" exampleNet = fetchPokemon exampleEnv "Pikachu" exampleNet
    ∧ getPokemonHandler exampleEnv (nameArgs "PIKACHU") exampleNet =
        getPokemonHandler exampleEnv (nameArgs "Pikachu") exampleNet :=
  have h := fetchPokemon_lowercases_only exampleEnv exampleNet "Pikachu" "PIKACHU"
    (nameArgs "Pikachu") (nameArgs "PIKACHU") (by decide) rfl rfl
  ⟨h.1.trans rfl, h.2.2.2.1, h.2.2.2.2⟩

set_option maxRecDepth 100000 in
/-- The ASCII runes, checked one by one: title-casing stays in ASCII, is
idempotent, and keeps a rune that is not a separator from becoming one. -/
theorem ascii_title_facts : ∀ n : Fin 128,
    (unicode.ToTitle asciiTables (Char.ofNat n.val)).toNat ≤ 0x7F ∧
    unicode.ToTitle asciiTables (unicode.ToTitle asciiTables (Char.ofNat n.val)) =
      unicode.ToTitle asciiTables (Char.ofNat n.val) ∧
    (strings.isSeparator asciiTables (Char.ofNat n.val) = false →
      strings.isSeparator asciiTables (unicode.ToTitle asciiTables (Char.ofNat n.val)) = false) := by
  decide

/-- On an ASCII rune `unicode.ToTitle` does not consult the table. -/
theorem ToTitle_ascii (U : UnicodeTables) (r : Char) (h : r.toNat ≤ 0x7F) :
    unicode.ToTitle U r = unicode.ToTitle asciiTables r := by
  simp [unicode.ToTitle, unicode.MaxASCII, h]

/-- On an ASCII rune `strings.isSeparator` does not consult the table. -/
theorem isSeparator_ascii (U : UnicodeTables) (r : Char) (h : r.toNat ≤ 0x7F) :
    strings.isSeparator U r = strings.isSeparator asciiTables r := by
  simp [strings.isSeparator, h]

/-- Title-casing an ASCII rune gives an ASCII rune. -/
theorem ToTitle_ascii_le (U : UnicodeTables) (r : Char) (h : r.toNat ≤ 0x7F) :
    (unicode.ToTitle U r).toNat ≤ 0x7F := by
  have hf := (ascii_title_facts ⟨r.toNat, by omega⟩).1
  simp only [Char.ofNat_toNat] at hf
  rw [ToTitle_ascii U r h]
  exact hf

/-- On ASCII runes title-casing is idempotent, for any table. -/
theorem ToTitle_ToTitle_ascii (U : UnicodeTables) (r : Char) (h : r.toNat ≤ 0x7F) :
    unicode.ToTitle U (unicode.ToTitle U r) = unicode.ToTitle U r := by
  have hf := (ascii_title_facts ⟨r.toNat, by omega⟩).2.1
  simp only [Char.ofNat_toNat] at hf
  rw [ToTitle_ascii U _ (ToTitle_ascii_le U r h), ToTitle_ascii U r h]
  exact hf

/-- Title-casing an ASCII rune that is not a separator does not make it one. -/
theorem isSeparator_ToTitle_ascii (U : UnicodeTables) (r : Char) (h : r.toNat ≤ 0x7F)
    (hs : strings.isSeparator U r = false) :
    strings.isSeparator U (unicode.ToTitle U r) = false := by
  have hf := (ascii_title_facts ⟨r.toNat, by omega⟩).2.2
  simp only [Char.ofNat_toNat] at hf
  rw [isSeparator_ascii U _ (ToTitle_ascii_le U r h), ToTitle_ascii U r h]
  exact hf ((isSeparator_ascii U r h).symm.trans hs)

/-- On a rune above ASCII `unicode.ToTitle` is the table. -/
theorem ToTitle_above (U : UnicodeTables) (r : Char) (h : 0x7F < r.toNat) :
    unicode.ToTitle U r = U.toTitle r := by
  simp [unicode.ToTitle, unicode.MaxASCII, Nat.not_le.mpr h]

/-- The step of the idempotence proof: running the closure of `strings.Title`
again, from a previous rune `q` that is a separator only if `p` was, changes nothing. -/
theorem titleMap_titleMap (U : UnicodeTables) (l : List Char)
    (htitle : ∀ r ∈ l, unicode.ToTitle U (unicode.ToTitle U r) = unicode.ToTitle U r)
    (hsep : ∀ r ∈ l, strings.isSeparator U r = false →
      strings.isSeparator U (unicode.ToTitle U r) = false) :
    ∀ p q : Char, (strings.isSeparator U p = false → strings.isSeparator U q = false) →
      strings.titleMap U q (strings.titleMap U p l) = strings.titleMap U p l := by
  induction l with
  | nil => intro p q _; rfl
  | cons r rs ih =>
    intro p q hpq
    have ht := htitle r (List.mem_cons_self r rs)
    have hs := hsep r (List.mem_cons_self r rs)
    have ih2 := ih (fun x hx => htitle x (List.mem_cons_of_mem r hx))
      (fun x hx => hsep x (List.mem_cons_of_mem r hx))
    simp only [strings.titleMap]
    cases hp : strings.isSeparator U p with
    | false =>
      have hq := hpq hp
      simp only [hq, Bool.false_eq_true, if_false]
      rw [ih2 r r (fun h => h)]
    | true =>
      simp only [if_true]
      rw [ih2 r (unicode.ToTitle U r) hs]
      cases hq : strings.isSeparator U q with
      | false => simp
      | true => simp [ht]

/-- C10: `strings.Title`, the title-casing both handlers apply to the display
name, is idempotent: `Title(Title(s)) = Title(s)`.  It holds for every name made
of ASCII runes (hyphenated or not) whatever the Unicode tables are; for a name
with runes above ASCII it holds when, on those runes, the table's title-casing is
idempotent and does not turn a rune that is not a separator into one. -/
theorem Title_idempotent (U : UnicodeTables) (s : String)
    (htitle : ∀ r ∈ s.data, 0x7F < r.toNat →
      unicode.ToTitle U (U.toTitle r) = U.toTitle r)
    (hsep : ∀ r ∈ s.data, 0x7F < r.toNat → strings.isSeparator U r = false →
      strings.isSeparator U (U.toTitle r) = false) :
    strings.Title U (strings.Title U s) = strings.Title U s := by
  have h1 : ∀ r ∈ s.data,
      unicode.ToTitle U (unicode.ToTitle U r) = unicode.ToTitle U r := by
    intro r hr
    by_cases hr7 : r.toNat ≤ 0x7F
    · exact ToTitle_ToTitle_ascii U r hr7
    · have hab : 0x7F < r.toNat := Nat.lt_of_not_le hr7
      rw [ToTitle_above U r hab]
      exact htitle r hr hab
  have h2 : ∀ r ∈ s.data, strings.isSeparator U r = false →
      strings.isSeparator U (unicode.ToTitle U r) = false := by
    intro r hr hs
    by_cases hr7 : r.toNat ≤ 0x7F
    · exact isSeparator_ToTitle_ascii U r hr7 hs
    · have hab : 0x7F < r.toNat := Nat.lt_of_not_le hr7
      rw [ToTitle_above U r hab]
      exact hsep r hr hab hs
  unfold strings.Title
  simp only
  rw [titleMap_titleMap U s.data h1 h2 ' ' ' ' (fun h => h)]

/-- C10 at the hyphenated name `"mr-mime"`, whose title-casing is `"Mr-Mime"`, and
at `"flabébé-élan"` with tables that know the letter `é`. -/
theorem Title_idempotent_witness :
    (strings.Title asciiTables "mr-mime" = "Mr-Mime"
      ∧ strings.Title asciiTables (strings.Title asciiTables "mr-mime") =
          strings.Title asciiTables "mr-mime")
    ∧ (strings.Title accentTables "flabébé-élan" = "Flabébé-Élan"
      ∧ strings.Title accentTables (strings.Title accentTables "flabébé-élan") =
          strings.Title accentTables "flabébé-élan") :=
  ⟨⟨by decide, Title_idempotent asciiTables "mr-mime" (by decide) (by decide)⟩,
   ⟨by decide, Title_idempotent accentTables "flabébé-élan" (by decide) (by decide)⟩⟩

end PokemonMcp
